import Mathlib

/-!
Shallow embedding of the veolia-api client (src/veolia_api/veolia_api.py,
src/veolia_api/model.py, src/veolia_api/constants.py).

The client drives a multi-step OAuth-style login flow over HTTP, exchanges
the resulting authorization code for an access token, resolves account
identifiers, and offers alert settings endpoints.  The embedding models the
HTTP world explicitly: every function that the Python code runs against the
network takes the responses it would receive as arguments (an `Env`), and
returns the list of requests it issued (the `trace`), the resulting mutable
session record (`VeoliaAccountData`), and either a value or the message of
the `VeoliaAPIError` it raised (`Except String`).

Python float timestamps are modelled as integers (`Int`); only order and
addition of timestamps matter to the code.  Random byte strings from
`os.urandom` are modelled as an oracle (`AuthRnd`, one triple per flow
iteration), and `_base64_url_encode (_sha256 -)` as an abstract function
`b64sha256` carried by the environment: no claim depends on the concrete
digest values.
-/

namespace Veolia

/-! ## Constants (src/veolia_api/constants.py) -/

def LOGIN_URL : String := "https://cognito-idp.eu-west-3.amazonaws.com"

def BACKEND_ISTEFR : String := "https://prd-ael-sirius-backend.istefr.fr"

def CALLBACK_ENDPOINT : String := "/callback"

def TYPE_FRONT : String := "WEB_ORDINATEUR"

/-- Modelled from the spec: the authorize endpoint path, imported by
veolia_api.py from a constants module revision that is not in the sources.
Its concrete value is never load-bearing; only its identity as a table key. -/
def AUTHORIZE_ENDPOINT : String := "/authorize"

/-- Modelled from the spec: the identifier-submission endpoint path. -/
def LOGIN_IDENTIFIER_ENDPOINT : String := "/u/login/identifier"

/-- Modelled from the spec: the password-submission endpoint path. -/
def LOGIN_PASSWORD_ENDPOINT : String := "/u/login/password"

/-- Modelled from the spec: the token endpoint path. -/
def OAUTH_TOKEN : String := "/oauth/token"

/-- Modelled from the spec: the application host that serves the callback
endpoint (steps other than the callback target the identity provider). -/
def BASE_URL : String := "https://www.eau.veolia.fr"

/-- Modelled from the spec: the OAuth client identifier. -/
def CLIENT_ID : String := "veolia-client-id"

/-- Modelled from the spec: the PKCE code challenge method tag. -/
def CODE_CHALLENGE_METHODE : String := "S256"

/-- Modelled from the spec: the fixed client-metadata tag sent as auth0Client,
the base64url encoding of a constant JSON literal in the source. -/
def AUTH0_CLIENT : String := "auth0-react-1.11.0"

/-! ## Data model (src/veolia_api/model.py) -/

/-- Alert settings record.  The threshold and notification fields are
assigned None by get_alerts when the corresponding alert is absent, so they
are optional here.  Field names follow the keyword arguments used by
veolia_api.py when constructing the record. -/
structure AlertSettings where
  daily_enabled : Bool
  daily_threshold : Option Int
  daily_contact_email : Option Bool
  daily_contact_sms : Option Bool
  monthly_enabled : Bool
  monthly_threshold : Option Int
  monthly_contact_email : Option Bool
  monthly_contact_sms : Option Bool
deriving DecidableEq, Repr

/-- Opaque consumption payload cached on the account record. -/
abbrev ConsumptionPayload := List (String × String)

/-- Mutable session record, one per client (VeoliaAccountData).
Timestamps are integers; identifier fields are optional strings whose
Python truthiness is modelled by `truthy`. -/
structure VeoliaAccountData where
  access_token : Option String := none
  token_expiration : Int := 0
  code : Option String := none
  verifier : Option String := none
  id_abonnement : Option String := none
  numero_pds : Option String := none
  contact_id : Option String := none
  tiers_id : Option String := none
  numero_compteur : Option String := none
  date_debut_abonnement : Option String := none
  monthly_consumption : Option ConsumptionPayload := none
  daily_consumption : Option ConsumptionPayload := none
  alert_settings : Option AlertSettings := none
deriving DecidableEq, Repr

/-- The client object: credentials plus the session record. -/
structure Client where
  username : String
  password : String
  account_data : VeoliaAccountData := {}
deriving DecidableEq, Repr

/-- Python truthiness of an optional string: None and the empty string are
falsy, every other string is truthy. -/
def truthy : Option String → Bool
  | none => false
  | some s => !s.isEmpty

/-- Python str coercion of an optional string, as used by f-strings and
str(): None renders as the string None. -/
def pyStr : Option String → String
  | none => "None"
  | some s => s

/-! ## HTTP world -/

/-- A parsed Location header: urlparse gives the path component and the
query string, which parse_qs turns into key-value pairs. -/
structure Redirect where
  path : String
  query : List (String × String)
deriving DecidableEq, Repr

/-- An HTTP response as the flow engine observes it: the status code and
the parsed Location header when one is present. -/
structure Response where
  status : Nat
  location : Option Redirect := none
deriving DecidableEq, Repr

/-- First value for a key, as parse_qs followed by indexing [0] yields it.
parse_qs drops blank values, so a pair with an empty value is invisible. -/
def parse_qs_first (q : List (String × String)) (k : String) : Option String :=
  ((q.filter (fun p => !p.2.isEmpty)).find? (fun p => p.1 == k)).map (fun p => p.2)

/-- The contact_channel object of a posted alert threshold. -/
structure ContactChannel where
  subscribed_by_email : Option Bool
  subscribed_by_mobile : Option Bool
deriving DecidableEq, Repr

/-- One posted alert threshold object (alerte_journaliere or
alerte_mensuelle). -/
structure AlertePayloadEntry where
  seuil : Option Int
  unite : String
  souscrite : Bool
  contact_channel : ContactChannel
deriving DecidableEq, Repr

/-- The JSON payload set_alerts posts: the two optional threshold objects
plus contact and subscription identifiers. -/
structure AlertsPayload where
  alerte_journaliere : Option AlertePayloadEntry
  alerte_mensuelle : Option AlertePayloadEntry
  contact_id : Option String
  numero_compteur : Option String
  tiers_id : Option String
  abo_id : String
  type_front : String
deriving DecidableEq, Repr

/-- A request issued by the client: endpoint key, full URL, method, the
parameter dict (values may be Python None), the correlation state in
scope when the request was issued, and a structured JSON body when the
call posts one. -/
structure Request where
  url : String
  full_url : String
  method : String
  params : List (String × Option String)
  sentState : Option String
  json : Option AlertsPayload := none
deriving DecidableEq, Repr

/-- One flow-step descriptor from the connection-flow table: HTTP method
and the status code that signals success. -/
structure FlowStepConfig where
  method : String
  success_status : Nat
deriving DecidableEq, Repr

/-- Modelled from the spec: API_CONNECTION_FLOW, the static table from the
constants module revision missing from the sources.  Authorize, identifier
and password submission each expect a 302 redirect; the callback expects
200.  The parameter builders of the table are modelled in _get_params. -/
def API_CONNECTION_FLOW (endpoint : String) : Option FlowStepConfig :=
  if endpoint = AUTHORIZE_ENDPOINT then some ⟨"GET", 302⟩
  else if endpoint = LOGIN_IDENTIFIER_ENDPOINT then some ⟨"POST", 302⟩
  else if endpoint = LOGIN_PASSWORD_ENDPOINT then some ⟨"POST", 302⟩
  else if endpoint = CALLBACK_ENDPOINT then some ⟨"GET", 200⟩
  else none

/-- The three base64url-encoded 32-byte random strings one authorize step
draws from os.urandom: state, nonce and PKCE verifier. -/
structure AuthRnd where
  state : String
  nonce : String
  verifier : String
deriving DecidableEq, Repr

/-! ## Crypto and parameter builders (veolia_api.py lines 45 to 76) -/

/-- _get_authorize_params: builds the parameter dict of the authorize call.
The supplied state argument is shadowed immediately by a freshly minted
random value, so it is never used.  b64sha256 stands for
_base64_url_encode applied to _sha256; the second component of the result
models the assignment of the fresh verifier to account_data.verifier. -/
def _get_authorize_params (b64sha256 : String → String) (rnd : AuthRnd)
    (state : Option String) : List (String × Option String) × String :=
  ([("audience", some BACKEND_ISTEFR),
    ("redirect_uri", some (BASE_URL ++ CALLBACK_ENDPOINT)),
    ("client_id", some CLIENT_ID),
    ("scope", some "openid profile email offline_access"),
    ("response_type", some "code"),
    ("state", some rnd.state),
    ("nonce", some rnd.nonce),
    ("response_mode", some "query"),
    ("code_challenge", some (b64sha256 rnd.verifier)),
    ("code_challenge_method", some CODE_CHALLENGE_METHODE),
    ("auth0Client", some AUTH0_CLIENT)], rnd.verifier)

/-- _get_full_url: non-callback steps target the identity provider host,
the callback targets the application host. -/
def _get_full_url (next_url : String) : String :=
  if next_url ≠ CALLBACK_ENDPOINT then LOGIN_URL ++ next_url
  else BASE_URL ++ next_url

/-- _get_params: per-step parameter dispatch.  The builders for the
identifier, password and callback steps are modelled from the spec
(correlation state plus username, plus password, plus the stored code
respectively); the authorize case additionally stores the fresh verifier
on the account record, as the source does inside _get_authorize_params. -/
def _get_params (b64sha256 : String → String) (rnd : AuthRnd)
    (next_url : String) (current_state : Option String)
    (username password : String) (d : VeoliaAccountData) :
    List (String × Option String) × VeoliaAccountData :=
  if next_url = AUTHORIZE_ENDPOINT then
    let pr := _get_authorize_params b64sha256 rnd current_state
    (pr.1, { d with verifier := some pr.2 })
  else if next_url = LOGIN_IDENTIFIER_ENDPOINT then
    ([("state", current_state), ("username", some username)], d)
  else if next_url = LOGIN_PASSWORD_ENDPOINT then
    ([("state", current_state), ("username", some username),
      ("password", some password)], d)
  else if next_url = CALLBACK_ENDPOINT then
    ([("state", current_state), ("code", d.code)], d)
  else
    ([], d)

/-! ## Response handling (veolia_api.py lines 178 to 216) -/

/-- Result of _handle_response: the next endpoint (none once the flow is
complete), the correlation state, and the stored authorization code. -/
structure HandleOut where
  nextUrl : Option String
  state : Option String
  code : Option String
deriving DecidableEq, Repr

/-- _handle_response.  cfg is the flow-table entry of next_url (the source
reads api_flow[next_url].success_status; the caller has just looked the
same key up).  code is account_data.code on entry; the returned code
models its assignment in the callback-redirect case. -/
def _handle_response (cfg : FlowStepConfig) (r : Response) (next_url : String)
    (state : Option String) (full_url : String) (code : Option String) :
    Except String HandleOut :=
  if r.status = 400 ∧ next_url = LOGIN_PASSWORD_ENDPOINT then
    .error "Invalid username or password"
  else if r.status ≠ cfg.success_status then
    .error ("API call to " ++ full_url ++ " failed with status "
      ++ toString r.status)
  else if r.status = 302 then
    match r.location with
    | none => .error "Location header missing"
    | some red =>
      let nu := red.path
      let st := match parse_qs_first red.query "state" with
        | some v => some v
        | none => state
      if nu = CALLBACK_ENDPOINT then
        match parse_qs_first red.query "code" with
        | none => .error "Authorization code not found"
        | some c => .ok ⟨some nu, st, some c⟩
      else
        .ok ⟨some nu, st, code⟩
  else if r.status = 200 ∧ next_url = CALLBACK_ENDPOINT then
    .ok ⟨none, state, code⟩
  else
    .error ("Unexpected 200 response from " ++ full_url)

/-- The state query parameter carried by the Location header of a
response, when there is one. -/
def redirect_state (r : Response) : Option String :=
  r.location.bind (fun red => parse_qs_first red.query "state")

/-- How one handled redirect updates the correlation state: a redirect
carrying a state query parameter overwrites the current value, any other
response leaves it in place. -/
def updState (s : Option String) (r : Response) : Option String :=
  match redirect_state r with
  | some v => some v
  | none => s

/-! ## The flow loop (veolia_api.py lines 125 to 139) -/

/-- The while loop of execute_flow.  Consumes one response per iteration;
rnd k supplies the random draws of iteration k.  Returns the issued
requests, the final account record, and the raised error if any (none
means the flow completed). -/
def execute_flow_aux (b64sha256 : String → String) (rnd : Nat → AuthRnd)
    (username password : String) :
    List Response → Nat → String → Option String → VeoliaAccountData →
    List Request × VeoliaAccountData × Option String
  | [], _, _, _, d => ([], d, some "no response from server")
  | r :: rest, k, next_url, state, d =>
    match API_CONNECTION_FLOW next_url with
    | none => ([], d, some ("KeyError: " ++ next_url))
    | some cfg =>
      let base := _get_full_url next_url
      let pd := _get_params b64sha256 (rnd k) next_url state username password d
      let full_url := if truthy state then base ++ "?state=" ++ pyStr state
        else base
      let req : Request := ⟨next_url, full_url, cfg.method, pd.1, state, none⟩
      match _handle_response cfg r next_url state full_url pd.2.code with
      | .error e => ([req], pd.2, some e)
      | .ok out =>
        let d2 := { pd.2 with code := out.code }
        match out.nextUrl with
        | none => ([req], d2, none)
        | some u2 =>
          let t := execute_flow_aux b64sha256 rnd username password rest
            (k + 1) u2 out.state d2
          (req :: t.1, t.2.1, t.2.2)

/-- execute_flow: the loop starts at the authorize endpoint with no
correlation state. -/
def execute_flow (b64sha256 : String → String) (rnd : Nat → AuthRnd)
    (username password : String) (responses : List Response)
    (d : VeoliaAccountData) :
    List Request × VeoliaAccountData × Option String :=
  execute_flow_aux b64sha256 rnd username password responses 0
    AUTHORIZE_ENDPOINT none d

/-! ## Environment: the responses the network would return -/

/-- Body of the token endpoint response, as far as get_access_token reads
it: dict get of access_token and expires_in. -/
structure TokenResponse where
  status : Nat
  access_token : Option String := none
  expires_in : Option Int := none
deriving DecidableEq, Repr

/-- One subscription record of the account endpoint body. -/
structure Abonnement where
  id_abonnement : Option String := none
  numero_compteur : Option String := none
deriving DecidableEq, Repr

/-- One tiers record of the account endpoint body. -/
structure Tiers where
  id : Option String := none
  abonnements : List Abonnement := []
deriving DecidableEq, Repr

/-- One contact record of the account endpoint body. -/
structure Contact where
  id_contact : Option String := none
  tiers : List Tiers := []
deriving DecidableEq, Repr

/-- The espace-client response: status and the contacts array. -/
structure EspaceResponse where
  status : Nat
  contacts : List Contact := []
deriving DecidableEq, Repr

/-- The facturation response, as far as get_client_data reads it. -/
structure FacturationResponse where
  status : Nat
  numero_pds : Option String := none
  date_debut_abonnement : Option String := none
deriving DecidableEq, Repr

/-- The moyen_contact object of one alert threshold. -/
structure MoyenContact where
  souscrit_par_email : Bool
  souscrit_par_mobile : Bool
deriving DecidableEq, Repr

/-- One threshold entry of the alerts body (journalier or mensuel). -/
structure AlertEntry where
  valeur : Int
  unite : String
  moyen_contact : MoyenContact
deriving DecidableEq, Repr

/-- The seuils object of the alerts body; either key may be absent. -/
structure Seuils where
  journalier : Option AlertEntry := none
  mensuel : Option AlertEntry := none
deriving DecidableEq, Repr

/-- The alerts GET response. -/
structure AlertsResponse where
  status : Nat
  seuils : Seuils := {}
deriving DecidableEq, Repr

/-- Everything the network returns to one client run, plus the random
oracle, the abstract PKCE digest function, and the current clock value
datetime.now().timestamp() reads. -/
structure Env where
  b64sha256 : String → String
  rnd : Nat → AuthRnd
  flow_responses : List Response
  token_response : TokenResponse
  espace_response : EspaceResponse
  facturation_response : FacturationResponse
  alerts_response : AlertsResponse := { status := 200 }
  set_alerts_status : Nat := 204
  now : Int

instance {ε α : Type} [DecidableEq ε] [DecidableEq α] :
    DecidableEq (Except ε α) := fun x y =>
  match x, y with
  | .ok a, .ok b => decidable_of_iff (a = b) (by simp)
  | .error a, .error b => decidable_of_iff (a = b) (by simp)
  | .ok _, .error _ => .isFalse (by simp)
  | .error _, .ok _ => .isFalse (by simp)

/-- Outcome of running one client operation: the requests issued, the
account record afterwards, and the returned value or raised error. -/
structure RunOutcome (α : Type) where
  trace : List Request
  data : VeoliaAccountData
  res : Except String α
deriving Repr, DecidableEq

/-! ## Token manager (veolia_api.py lines 241 to 337) -/

/-- The condition under which check_token re-runs the login: the access
token is falsy, or the clock is at or past the stored expiration. -/
def check_token_triggers (d : VeoliaAccountData) (now : Int) : Bool :=
  !(truthy d.access_token) || decide (now ≥ d.token_expiration)

/-- The POST issued by get_access_token (a JSON body, recorded here as the
parameter list). -/
def token_request (d : VeoliaAccountData) : Request :=
  ⟨OAUTH_TOKEN, LOGIN_URL ++ OAUTH_TOKEN, "POST",
    [("client_id", some CLIENT_ID),
     ("grant_type", some "authorization_code"),
     ("code_verifier", d.verifier),
     ("code", d.code),
     ("redirect_uri", some (BASE_URL ++ CALLBACK_ENDPOINT))], none, none⟩

/-- get_access_token: expects 200 from the token endpoint, stores the
access token (the assignment happens before the presence check, as in the
source), fails if it is falsy, and otherwise stores now + expires_in as
the expiration, expires_in defaulting to 0. -/
def get_access_token (env : Env) (d : VeoliaAccountData) : RunOutcome Unit :=
  let req := token_request d
  let tr := env.token_response
  if tr.status ≠ 200 then ⟨[req], d, .error "Token API call error"⟩
  else
    let d1 := { d with access_token := tr.access_token }
    if !(truthy d1.access_token) then
      ⟨[req], d1, .error "Access token not found in the token response"⟩
    else
      ⟨[req], { d1 with token_expiration := env.now + tr.expires_in.getD 0 },
        .ok ()⟩

/-- The GET issued against the espace-client endpoint. -/
def espace_request : Request :=
  ⟨"/espace-client",
    BACKEND_ISTEFR ++ "/espace-client?type-front=" ++ TYPE_FRONT, "GET",
    [], none, none⟩

/-- The GET issued against the facturation endpoint. -/
def facturation_request (d : VeoliaAccountData) : Request :=
  ⟨"/facturation",
    BACKEND_ISTEFR ++ "/abonnements/" ++ pyStr d.id_abonnement
      ++ "/facturation", "GET", [], none, none⟩

/-- check_token body, parameterized over the re-login the source performs
by calling self.login: when the token is falsy or the clock is at or past
the expiration, re-run the login and propagate its outcome; otherwise do
nothing. -/
def check_token_with (relogin : Client → RunOutcome Bool) (now : Int)
    (c : Client) : RunOutcome Unit :=
  if check_token_triggers c.account_data now then
    let o := relogin c
    ⟨o.trace, o.data, o.res.map (fun _ => ())⟩
  else ⟨[], c.account_data, .ok ()⟩

/-- get_client_data body: ensures a valid token, then resolves the four
account identifiers from the espace-client body (assignments happen
before the presence check, as in the source) and the two billing fields
from the facturation body.  Missing list entries in the body would crash
the source with an IndexError or TypeError, modelled as that error
message. -/
def get_client_data_with (relogin : Client → RunOutcome Bool) (env : Env)
    (c : Client) : RunOutcome Unit :=
  let o1 := check_token_with relogin env.now c
  match o1.res with
  | .error e => ⟨o1.trace, o1.data, .error e⟩
  | .ok _ =>
    let d := o1.data
    let er := env.espace_response
    if er.status ≠ 200 then
      ⟨o1.trace ++ [espace_request], d, .error "Espace-client call error"⟩
    else
      match er.contacts.head? with
      | none => ⟨o1.trace ++ [espace_request], d, .error "IndexError"⟩
      | some contact =>
        match contact.tiers.head? with
        | none => ⟨o1.trace ++ [espace_request], d, .error "IndexError"⟩
        | some t =>
          match t.abonnements.head? with
          | none => ⟨o1.trace ++ [espace_request], d, .error "IndexError"⟩
          | some ab =>
            let d2 := { d with
              id_abonnement := ab.id_abonnement,
              tiers_id := t.id,
              contact_id := contact.id_contact,
              numero_compteur := ab.numero_compteur }
            if !(truthy d2.id_abonnement) || !(truthy d2.tiers_id)
                || !(truthy d2.contact_id) || !(truthy d2.numero_compteur) then
              ⟨o1.trace ++ [espace_request], d2,
                .error "Some user data not found in the response"⟩
            else
              let fr := env.facturation_response
              if fr.status ≠ 200 then
                ⟨o1.trace ++ [espace_request, facturation_request d2], d2,
                  .error "Facturation call error"⟩
              else
                let d3 := { d2 with numero_pds := fr.numero_pds }
                if !(truthy d3.numero_pds) then
                  ⟨o1.trace ++ [espace_request, facturation_request d2], d3,
                    .error "numero_pds not found in the response"⟩
                else
                  let d4 := { d3 with
                    date_debut_abonnement := fr.date_debut_abonnement }
                  if !(truthy d4.date_debut_abonnement) then
                    ⟨o1.trace ++ [espace_request, facturation_request d2], d4,
                      .error "date_debut_abonnement not found in the response"⟩
                  else
                    ⟨o1.trace ++ [espace_request, facturation_request d2], d4,
                      .ok ()⟩

/-- login body: rejects falsy credentials, then runs the flow, the token
exchange and the identifier resolution, and finally reports whether all
seven identifier fields are truthy. -/
def login_with (relogin : Client → RunOutcome Bool) (env : Env)
    (c : Client) : RunOutcome Bool :=
  if c.username.isEmpty || c.password.isEmpty then
    ⟨[], c.account_data, .error "Username or password not provided"⟩
  else
    let f := execute_flow env.b64sha256 env.rnd c.username c.password
      env.flow_responses c.account_data
    match f.2.2 with
    | some e => ⟨f.1, f.2.1, .error e⟩
    | none =>
      let o2 := get_access_token env f.2.1
      match o2.res with
      | .error e => ⟨f.1 ++ o2.trace, o2.data, .error e⟩
      | .ok _ =>
        let o3 := get_client_data_with relogin env
          { c with account_data := o2.data }
        match o3.res with
        | .error e => ⟨f.1 ++ o2.trace ++ o3.trace, o3.data, .error e⟩
        | .ok _ =>
          ⟨f.1 ++ o2.trace ++ o3.trace, o3.data,
            .ok (truthy o3.data.access_token
              && truthy o3.data.id_abonnement
              && truthy o3.data.numero_pds
              && truthy o3.data.contact_id
              && truthy o3.data.tiers_id
              && truthy o3.data.numero_compteur
              && truthy o3.data.date_debut_abonnement)⟩

/-- login: the source re-enters login through check_token when the token
it just stored is already expired; fuel bounds that re-entry, exhausted
fuel modelling the RecursionError Python produces. -/
def login : Nat → Env → Client → RunOutcome Bool
  | 0, env, c =>
    login_with (fun c2 => ⟨[], c2.account_data, .error "RecursionError"⟩)
      env c
  | n + 1, env, c => login_with (fun c2 => login n env c2) env c

/-- The re-login check_token performs at a given fuel level. -/
def relogin_at (fuel : Nat) (env : Env) : Client → RunOutcome Bool :=
  fun c => match fuel with
    | 0 => ⟨[], c.account_data, .error "RecursionError"⟩
    | n + 1 => login n env c

/-- check_token as callable on a client. -/
def check_token (fuel : Nat) (env : Env) (c : Client) : RunOutcome Unit :=
  check_token_with (relogin_at fuel env) env.now c

/-- get_client_data as callable on a client. -/
def get_client_data (fuel : Nat) (env : Env) (c : Client) : RunOutcome Unit :=
  get_client_data_with (relogin_at fuel env) env c

/-- login at any fuel level is the login body with that re-login. -/
theorem login_eq_with (fuel : Nat) (env : Env) (c : Client) :
    login fuel env c = login_with (relogin_at fuel env) env c := by
  cases fuel with
  | zero => rfl
  | succ n => rfl

/-! ## Alerts (veolia_api.py lines 369 to 494) -/

/-- The GET issued against the alerts endpoint. -/
def alerts_request (d : VeoliaAccountData) : Request :=
  ⟨"/alertes", BACKEND_ISTEFR ++ "/alertes/" ++ pyStr d.numero_pds, "GET",
    [("abo_id", d.id_abonnement)], none, none⟩

/-- get_alerts: ensures a valid token, expects 200 from the alerts
endpoint, and maps the optional journalier and mensuel threshold entries
to an AlertSettings value, absent entries giving a disabled flag and None
for the detail fields. -/
def get_alerts (fuel : Nat) (env : Env) (c : Client) :
    RunOutcome AlertSettings :=
  let o1 := check_token fuel env c
  match o1.res with
  | .error e => ⟨o1.trace, o1.data, .error e⟩
  | .ok _ =>
    let d := o1.data
    let ar := env.alerts_response
    if ar.status ≠ 200 then
      ⟨o1.trace ++ [alerts_request d], d,
        .error ("Get alerts call error status code " ++ toString ar.status)⟩
    else
      let daily := ar.seuils.journalier
      let monthly := ar.seuils.mensuel
      ⟨o1.trace ++ [alerts_request d], d, .ok {
        daily_enabled := daily.isSome,
        daily_threshold := daily.map (fun a => a.valeur),
        daily_contact_email :=
          daily.map (fun a => a.moyen_contact.souscrit_par_email),
        daily_contact_sms :=
          daily.map (fun a => a.moyen_contact.souscrit_par_mobile),
        monthly_enabled := monthly.isSome,
        monthly_threshold := monthly.map (fun a => a.valeur),
        monthly_contact_email :=
          monthly.map (fun a => a.moyen_contact.souscrit_par_email),
        monthly_contact_sms :=
          monthly.map (fun a => a.moyen_contact.souscrit_par_mobile) }⟩

/-- The payload set_alerts builds from the alert settings and the account
record: each threshold object is present exactly when its enabled flag is
set, and abo_id goes through Python str coercion. -/
def set_alerts_payload (d : VeoliaAccountData) (a : AlertSettings) :
    AlertsPayload :=
  { alerte_journaliere :=
      if a.daily_enabled then
        some ⟨a.daily_threshold, "L", true,
          ⟨a.daily_contact_email, a.daily_contact_sms⟩⟩
      else none,
    alerte_mensuelle :=
      if a.monthly_enabled then
        some ⟨a.monthly_threshold, "M3", true,
          ⟨a.monthly_contact_email, a.monthly_contact_sms⟩⟩
      else none,
    contact_id := d.contact_id,
    numero_compteur := d.numero_compteur,
    tiers_id := d.tiers_id,
    abo_id := pyStr d.id_abonnement,
    type_front := TYPE_FRONT }

/-- The POST issued against the alerts endpoint, carrying the structured
JSON payload. -/
def set_alerts_request (d : VeoliaAccountData) (p : AlertsPayload) : Request :=
  ⟨"/alertes", BACKEND_ISTEFR ++ "/alertes/" ++ pyStr d.numero_pds, "POST",
    [], none, some p⟩

/-- set_alerts: ensures a valid token, posts the payload built by
set_alerts_payload, and reports success exactly when the response status
is 204. -/
def set_alerts (fuel : Nat) (env : Env) (c : Client) (a : AlertSettings) :
    RunOutcome Bool :=
  let o1 := check_token fuel env c
  match o1.res with
  | .error e => ⟨o1.trace, o1.data, .error e⟩
  | .ok _ =>
    let d := o1.data
    ⟨o1.trace ++ [set_alerts_request d (set_alerts_payload d a)], d,
      .ok (decide (env.set_alerts_status = 204))⟩

/-! ## Helper lemmas -/

theorem flow_cfg_authorize :
    API_CONNECTION_FLOW AUTHORIZE_ENDPOINT = some ⟨"GET", 302⟩ := by rfl

theorem flow_cfg_identifier :
    API_CONNECTION_FLOW LOGIN_IDENTIFIER_ENDPOINT = some ⟨"POST", 302⟩ := by
  rfl

theorem flow_cfg_password :
    API_CONNECTION_FLOW LOGIN_PASSWORD_ENDPOINT = some ⟨"POST", 302⟩ := by rfl

theorem flow_cfg_callback :
    API_CONNECTION_FLOW CALLBACK_ENDPOINT = some ⟨"GET", 200⟩ := by rfl

/-! ## C6 -/

/-- C6: the authorize parameter builder ignores its supplied state
argument: with the same random draws, any two supplied values (including
none) give identical results, and the emitted state parameter is the
freshly minted random value. -/
theorem authorize_params_ignore_state (b64sha256 : String → String)
    (rnd : AuthRnd) (s1 s2 : Option String) :
    _get_authorize_params b64sha256 rnd s1
      = _get_authorize_params b64sha256 rnd s2
    ∧ List.lookup "state" (_get_authorize_params b64sha256 rnd s1).1
      = some (some rnd.state) := by
  refine ⟨rfl, ?_⟩
  rfl

/-! ## C1 -/

/-- C1: check_token re-runs the full login exactly when the access token
is falsy or the clock is at or past the stored expiration; with a truthy
token and a strictly future expiration it issues no request and leaves
every field of the session record unchanged. -/
theorem check_token_relogin_iff (fuel : Nat) (env : Env) (c : Client) :
    ((truthy c.account_data.access_token = false
        ∨ env.now ≥ c.account_data.token_expiration) →
      check_token (fuel + 1) env c =
        ⟨(login fuel env c).trace, (login fuel env c).data,
          (login fuel env c).res.map (fun _ => ())⟩)
    ∧ (truthy c.account_data.access_token = true →
        env.now < c.account_data.token_expiration →
      check_token (fuel + 1) env c = ⟨[], c.account_data, .ok ()⟩) := by
  constructor
  · intro h
    have ht : check_token_triggers c.account_data env.now = true := by
      unfold check_token_triggers
      rcases h with h | h
      · simp [h]
      · simp [h]
    unfold check_token check_token_with relogin_at
    rw [ht]
    rfl
  · intro h1 h2
    have ht : check_token_triggers c.account_data env.now = false := by
      unfold check_token_triggers
      simp [h1, not_le.mpr h2]
    unfold check_token check_token_with
    rw [ht]
    rfl

/-! ## C5 -/

/-- C5: get_access_token fails unless the token endpoint answers 200, on
200 fails when the access token is absent, and otherwise stores the token
and sets the expiration to now plus expires_in (default 0); with
expires_in absent the stored token immediately triggers re-login under
the check_token comparison. -/
theorem get_access_token_spec (env : Env) (d : VeoliaAccountData) :
    (env.token_response.status ≠ 200 →
      get_access_token env d
        = ⟨[token_request d], d, .error "Token API call error"⟩)
    ∧ (env.token_response.status = 200 →
        truthy env.token_response.access_token = false →
      get_access_token env d
        = ⟨[token_request d],
            { d with access_token := env.token_response.access_token },
            .error "Access token not found in the token response"⟩)
    ∧ (env.token_response.status = 200 →
        truthy env.token_response.access_token = true →
      get_access_token env d
        = ⟨[token_request d],
            { d with
              access_token := env.token_response.access_token,
              token_expiration :=
                env.now + env.token_response.expires_in.getD 0 },
            .ok ()⟩)
    ∧ (env.token_response.status = 200 →
        truthy env.token_response.access_token = true →
        env.token_response.expires_in = none →
      check_token_triggers (get_access_token env d).data env.now = true) := by
  refine ⟨?_, ?_, ?_, ?_⟩
  · intro h
    simp [get_access_token, h]
  · intro h1 h2
    simp [get_access_token, h1, h2]
  · intro h1 h2
    simp [get_access_token, h1, h2]
  · intro h1 h2 h3
    simp [get_access_token, h1, h2, h3, check_token_triggers]

/-! ## C10 -/

/-- C10: a falsy username or password makes login raise before any flow
step: no request is issued and the session record is unchanged. -/
theorem login_empty_credentials (fuel : Nat) (env : Env) (c : Client)
    (h : c.username = "" ∨ c.password = "") :
    login fuel env c
      = ⟨[], c.account_data, .error "Username or password not provided"⟩ := by
  have hg : (c.username.isEmpty || c.password.isEmpty) = true := by
    rcases h with h | h
    · rw [h]
      rfl
    · rw [h]
      simp [String.isEmpty]
  rw [login_eq_with]
  unfold login_with
  rw [hg]
  rfl

/-! ## C3 -/

/-- When the login body returns a value, that value reflects the
truthiness of the seven identifier fields of the final session record. -/
theorem login_with_success_iff (R : Client → RunOutcome Bool) (env : Env)
    (c : Client) (tr : List Request) (d2 : VeoliaAccountData) (b : Bool)
    (h : login_with R env c = ⟨tr, d2, .ok b⟩) :
    b = true ↔ (truthy d2.access_token = true
      ∧ truthy d2.id_abonnement = true
      ∧ truthy d2.numero_pds = true
      ∧ truthy d2.contact_id = true
      ∧ truthy d2.tiers_id = true
      ∧ truthy d2.numero_compteur = true
      ∧ truthy d2.date_debut_abonnement = true) := by
  unfold login_with at h
  dsimp only at h
  split at h
  · simp at h
  · split at h
    · simp at h
    · split at h
      · simp at h
      · split at h
        · simp at h
        · rw [RunOutcome.mk.injEq] at h
          obtain ⟨h1, h2, h3⟩ := h
          rw [Except.ok.injEq] at h3
          subst h2
          rw [← h3]
          simp [Bool.and_eq_true, and_assoc]

/-- C3: when login returns a value rather than raising, that value is True
exactly when all seven identifier fields of the final session record are
truthy; any empty field makes the returned value False, not an
exception. -/
theorem login_success_iff (fuel : Nat) (env : Env) (c : Client)
    (tr : List Request) (d2 : VeoliaAccountData) (b : Bool)
    (h : login fuel env c = ⟨tr, d2, .ok b⟩) :
    b = true ↔ (truthy d2.access_token = true
      ∧ truthy d2.id_abonnement = true
      ∧ truthy d2.numero_pds = true
      ∧ truthy d2.contact_id = true
      ∧ truthy d2.tiers_id = true
      ∧ truthy d2.numero_compteur = true
      ∧ truthy d2.date_debut_abonnement = true) := by
  rw [login_eq_with] at h
  exact login_with_success_iff (relogin_at fuel env) env c tr d2 b h

/-! ## C4 -/

/-- A 400 response to the password-submission step yields the credential
error whatever the declared success status: the check precedes the
generic status-mismatch check. -/
theorem handle_password_400 (cfg : FlowStepConfig) (r : Response)
    (s : Option String) (url : String) (code : Option String)
    (h : r.status = 400) :
    _handle_response cfg r LOGIN_PASSWORD_ENDPOINT s url code
      = .error "Invalid username or password" := by
  simp [_handle_response, h]

/-- C4: a 400 response to the password-submission step fails the flow with
the invalid-credentials error, before the status-mismatch check, and the
loop issues no further request: the trace gains exactly the password
request and the error is the final outcome, whatever responses remain. -/
theorem password_400_terminal :
    (∀ (cfg : FlowStepConfig) (r : Response) (s : Option String)
        (url : String) (code : Option String), r.status = 400 →
      _handle_response cfg r LOGIN_PASSWORD_ENDPOINT s url code
        = .error "Invalid username or password")
    ∧ ∀ (b64 : String → String) (rnd : Nat → AuthRnd) (u p : String)
        (r : Response) (rest : List Response) (k : Nat) (s : Option String)
        (d : VeoliaAccountData), r.status = 400 →
      (execute_flow_aux b64 rnd u p (r :: rest) k
          LOGIN_PASSWORD_ENDPOINT s d).1.length = 1
      ∧ (execute_flow_aux b64 rnd u p (r :: rest) k
          LOGIN_PASSWORD_ENDPOINT s d).2.2
        = some "Invalid username or password" := by
  constructor
  · intro cfg r s url code h
    exact handle_password_400 cfg r s url code h
  · intro b64 rnd u p r rest k s d h
    simp only [execute_flow_aux, flow_cfg_password]
    rw [handle_password_400 _ r s _ _ h]
    simp

/-! ## C9 -/

/-- C9 counterexample: a 200 response at the authorize step is rejected by
the status-mismatch check, which runs first, so the error raised is the
generic step failure and not the dedicated unexpected-success error the
claim names. -/
theorem status200_authorize_not_unexpected :
    _handle_response ⟨"GET", 302⟩ ⟨200, none⟩ AUTHORIZE_ENDPOINT none
        (LOGIN_URL ++ AUTHORIZE_ENDPOINT) none
      = .error ("API call to " ++ (LOGIN_URL ++ AUTHORIZE_ENDPOINT)
          ++ " failed with status 200")
    ∧ _handle_response ⟨"GET", 302⟩ ⟨200, none⟩ AUTHORIZE_ENDPOINT none
        (LOGIN_URL ++ AUTHORIZE_ENDPOINT) none
      ≠ .error ("Unexpected 200 response from "
          ++ (LOGIN_URL ++ AUTHORIZE_ENDPOINT)) := by
  constructor
  · rfl
  · decide

/-- C9 amended: a 200 response at any table step other than the callback
terminates the flow with the generic status-mismatch failure (every such
step declares 302 as its success status, so the dedicated unexpected-200
branch is not reached); only a 200 at the callback endpoint completes the
flow, the next state becoming terminal. -/
theorem status200_noncallback_fails (u : String) (cfg : FlowStepConfig)
    (r : Response) (s : Option String) (url : String)
    (code : Option String) :
    (API_CONNECTION_FLOW u = some cfg → u ≠ CALLBACK_ENDPOINT →
      r.status = 200 →
      _handle_response cfg r u s url code
        = .error ("API call to " ++ url ++ " failed with status "
            ++ toString (200 : Nat)))
    ∧ (r.status = 200 →
      _handle_response ⟨"GET", 200⟩ r CALLBACK_ENDPOINT s url code
        = .ok ⟨none, s, code⟩) := by
  constructor
  · intro hcfg hne h200
    unfold API_CONNECTION_FLOW at hcfg
    split_ifs at hcfg with h1 h2 h3
    · rw [Option.some.injEq] at hcfg
      subst hcfg
      subst h1
      simp [_handle_response, h200, AUTHORIZE_ENDPOINT,
        LOGIN_PASSWORD_ENDPOINT]
    · rw [Option.some.injEq] at hcfg
      subst hcfg
      subst h2
      simp [_handle_response, h200, LOGIN_IDENTIFIER_ENDPOINT,
        LOGIN_PASSWORD_ENDPOINT]
    · rw [Option.some.injEq] at hcfg
      subst hcfg
      subst h3
      simp [_handle_response, h200]
  · intro h200
    simp [_handle_response, h200, CALLBACK_ENDPOINT,
      LOGIN_PASSWORD_ENDPOINT]

/-! ## C7 -/

/-- C7: with a valid token, a 200 alerts response whose seuils object has
no journalier key makes get_alerts return daily_enabled false and None
for the daily threshold and both daily notification flags. -/
theorem get_alerts_daily_absent (fuel : Nat) (env : Env) (c : Client)
    (h1 : truthy c.account_data.access_token = true)
    (h2 : env.now < c.account_data.token_expiration)
    (h3 : env.alerts_response.status = 200)
    (h4 : env.alerts_response.seuils.journalier = none) :
    get_alerts fuel env c
      = ⟨[alerts_request c.account_data], c.account_data,
          .ok { daily_enabled := false, daily_threshold := none,
                daily_contact_email := none, daily_contact_sms := none,
                monthly_enabled := env.alerts_response.seuils.mensuel.isSome,
                monthly_threshold :=
                  env.alerts_response.seuils.mensuel.map (fun a => a.valeur),
                monthly_contact_email :=
                  env.alerts_response.seuils.mensuel.map
                    (fun a => a.moyen_contact.souscrit_par_email),
                monthly_contact_sms :=
                  env.alerts_response.seuils.mensuel.map
                    (fun a => a.moyen_contact.souscrit_par_mobile) }⟩ := by
  have hT : check_token_triggers c.account_data env.now = false := by
    unfold check_token_triggers
    simp [h1, not_le.mpr h2]
  unfold get_alerts check_token check_token_with
  rw [hT]
  simp [h3, h4]

/-! ## C8 -/

/-- C8: set_alerts omits alerte_journaliere from the posted payload
exactly when daily_enabled is false and includes it fully populated when
true; with a valid token the posted payload is the one built from the
settings and the call reports success exactly when the response status is
204. -/
theorem set_alerts_spec (d : VeoliaAccountData) (a : AlertSettings)
    (fuel : Nat) (env : Env) (c : Client) :
    (a.daily_enabled = false →
      (set_alerts_payload d a).alerte_journaliere = none)
    ∧ (a.daily_enabled = true →
      (set_alerts_payload d a).alerte_journaliere
        = some ⟨a.daily_threshold, "L", true,
            ⟨a.daily_contact_email, a.daily_contact_sms⟩⟩)
    ∧ (truthy c.account_data.access_token = true →
        env.now < c.account_data.token_expiration →
      (set_alerts fuel env c a).trace
        = [set_alerts_request c.account_data
            (set_alerts_payload c.account_data a)]
      ∧ ((set_alerts fuel env c a).res = .ok true
          ↔ env.set_alerts_status = 204)) := by
  refine ⟨?_, ?_, ?_⟩
  · intro h
    simp [set_alerts_payload, h]
  · intro h
    simp [set_alerts_payload, h]
  · intro h1 h2
    have hT : check_token_triggers c.account_data env.now = false := by
      unfold check_token_triggers
      simp [h1, not_le.mpr h2]
    unfold set_alerts check_token check_token_with
    rw [hT]
    constructor
    · simp
    · simp

/-! ## C2 -/

/-- Whenever _handle_response continues the flow (returns a next step),
the correlation state it returns is the one the redirect carried when the
Location query has a state parameter, and the unchanged incoming state
otherwise. -/
theorem handle_ok_next_state (cfg : FlowStepConfig) (r : Response)
    (nu : String) (s : Option String) (url : String) (code : Option String)
    (out : HandleOut) (u2 : String)
    (h : _handle_response cfg r nu s url code = .ok out)
    (hn : out.nextUrl = some u2) :
    out.state = updState s r := by
  unfold _handle_response at h
  split at h
  · simp at h
  · split at h
    · simp at h
    · split at h
      · rcases hloc : r.location with _ | red
        · rw [hloc] at h
          simp at h
        · rw [hloc] at h
          dsimp only at h
          split at h
          · split at h
            · simp at h
            · rw [Except.ok.injEq] at h
              rw [← h]
              unfold updState redirect_state
              rw [hloc]
              rfl
          · rw [Except.ok.injEq] at h
            rw [← h]
            unfold updState redirect_state
            rw [hloc]
            rfl
      · split at h
        · rw [Except.ok.injEq] at h
          rw [← h] at hn
          simp at hn
        · simp at h

/-- The correlation-state invariant of the flow loop: the state sent with
the request of iteration i equals the incoming state folded through the
state updates of the i responses handled before it. -/
theorem execute_flow_aux_sentState (b64 : String → String)
    (rnd : Nat → AuthRnd) (u p : String) :
    ∀ (responses : List Response) (k : Nat) (nu : String) (s : Option String)
      (d : VeoliaAccountData) (tr : List Request) (dd : VeoliaAccountData)
      (err : Option String),
      execute_flow_aux b64 rnd u p responses k nu s d = (tr, dd, err) →
      ∀ (i : Nat) (h : i < tr.length),
        (tr.get ⟨i, h⟩).sentState = (responses.take i).foldl updState s := by
  intro responses
  induction responses with
  | nil =>
    intro k nu s d tr dd err hflow i h
    unfold execute_flow_aux at hflow
    rw [Prod.mk.injEq] at hflow
    have htr := hflow.1
    subst htr
    simp at h
  | cons r rest ih =>
    intro k nu s d tr dd err hflow i h
    unfold execute_flow_aux at hflow
    rcases hcfg : API_CONNECTION_FLOW nu with _ | cfg
    · rw [hcfg] at hflow
      dsimp only at hflow
      rw [Prod.mk.injEq] at hflow
      have htr := hflow.1
      subst htr
      simp at h
    · rw [hcfg] at hflow
      dsimp only at hflow
      split at hflow
      · rw [Prod.mk.injEq] at hflow
        have htr := hflow.1
        subst htr
        cases i with
        | zero => simp
        | succ j => simp at h
      · split at hflow
        · rw [Prod.mk.injEq] at hflow
          have htr := hflow.1
          subst htr
          cases i with
          | zero => simp
          | succ j => simp at h
        · rename_i x1 out hh x2 u2 hn
          rw [Prod.mk.injEq] at hflow
          have htr := hflow.1
          subst htr
          cases i with
          | zero => simp
          | succ j =>
            rw [List.take_succ_cons, List.foldl_cons]
            rw [← handle_ok_next_state cfg r nu s _ _ out u2 hh hn]
            simp only [List.get_cons_succ]
            exact ih _ _ _ _ _ _ _ rfl j _


/-- The first request of a flow run starting at the authorize endpoint is
the authorize call, and its parameter set is exactly the one built from
the fresh random draws, whatever state value is in scope. -/
theorem execute_flow_aux_head (b64 : String → String) (rnd : Nat → AuthRnd)
    (u p : String) (r : Response) (rest : List Response) (k : Nat)
    (s : Option String) (d : VeoliaAccountData) (tr : List Request)
    (dd : VeoliaAccountData) (err : Option String)
    (hflow : execute_flow_aux b64 rnd u p (r :: rest) k AUTHORIZE_ENDPOINT s d
      = (tr, dd, err)) (h0 : 0 < tr.length) :
    (tr.get ⟨0, h0⟩).url = AUTHORIZE_ENDPOINT
    ∧ (tr.get ⟨0, h0⟩).params = (_get_authorize_params b64 (rnd k) s).1 := by
  unfold execute_flow_aux at hflow
  rw [flow_cfg_authorize] at hflow
  dsimp only at hflow
  split at hflow
  · rw [Prod.mk.injEq] at hflow
    have htr := hflow.1
    subst htr
    exact ⟨by simp, by simp [_get_params]⟩
  · split at hflow
    · rw [Prod.mk.injEq] at hflow
      have htr := hflow.1
      subst htr
      exact ⟨by simp, by simp [_get_params]⟩
    · rw [Prod.mk.injEq] at hflow
      have htr := hflow.1
      subst htr
      exact ⟨by simp, by simp [_get_params]⟩

/-- C2: for every flow run, every request records as its sent state the
value obtained by folding the redirect state updates of the responses
handled before it, starting from none — in particular the
password-submission request carries the state of the most recent prior
redirect; the first request is the authorize call whose parameters come
from the fresh random draws alone; a continuing step returns the redirect
state exactly as updState describes, and updState lets a redirect that
carries a state parameter overwrite the current value. -/
theorem flow_state_correlation (b64 : String → String) (rnd : Nat → AuthRnd)
    (u p : String) (d : VeoliaAccountData) (responses : List Response) :
    (∀ (i : Nat) (h : i < (execute_flow b64 rnd u p responses d).1.length),
      ((execute_flow b64 rnd u p responses d).1.get ⟨i, h⟩).url
          = LOGIN_PASSWORD_ENDPOINT →
      ((execute_flow b64 rnd u p responses d).1.get ⟨i, h⟩).sentState
          = (responses.take i).foldl updState none)
    ∧ (∀ (h0 : 0 < (execute_flow b64 rnd u p responses d).1.length),
      ((execute_flow b64 rnd u p responses d).1.get ⟨0, h0⟩).url
          = AUTHORIZE_ENDPOINT
      ∧ ((execute_flow b64 rnd u p responses d).1.get ⟨0, h0⟩).params
          = (_get_authorize_params b64 (rnd 0) none).1)
    ∧ (∀ (cfg : FlowStepConfig) (r : Response) (nu : String)
        (s : Option String) (url : String) (code : Option String)
        (out : HandleOut) (u2 : String),
        _handle_response cfg r nu s url code = .ok out →
        out.nextUrl = some u2 → out.state = updState s r)
    ∧ (∀ (s : Option String) (r : Response) (v : String),
        redirect_state r = some v → updState s r = some v) := by
  refine ⟨?_, ?_, ?_, ?_⟩
  · intro i h _
    exact execute_flow_aux_sentState b64 rnd u p responses 0
      AUTHORIZE_ENDPOINT none d _ _ _ rfl i h
  · intro h0
    cases responses with
    | nil =>
      exfalso
      revert h0
      simp [execute_flow, execute_flow_aux]
    | cons r rest =>
      exact execute_flow_aux_head b64 rnd u p r rest 0 none d _ _ _ rfl h0
  · intro cfg r nu s url code out u2 hh hn
    exact handle_ok_next_state cfg r nu s url code out u2 hh hn
  · intro s r v hv
    unfold updState
    rw [hv]

/-! ## Concrete runs -/

/-- A concrete stand-in for the base64url SHA-256 digest. -/
def wB64 : String → String := fun x => x ++ "H"

/-- A concrete random oracle for the flow. -/
def wRnd : Nat → AuthRnd := fun _ => ⟨"RS", "RN", "RV"⟩

/-- A successful redirect chain: authorize to identifier (state S1) to
password (state S2) to callback (state S3, code C1), then the final 200. -/
def wFlowResponses : List Response :=
  [⟨302, some ⟨LOGIN_IDENTIFIER_ENDPOINT, [("state", "S1")]⟩⟩,
   ⟨302, some ⟨LOGIN_PASSWORD_ENDPOINT, [("state", "S2")]⟩⟩,
   ⟨302, some ⟨CALLBACK_ENDPOINT, [("state", "S3"), ("code", "C1")]⟩⟩,
   ⟨200, none⟩]

/-- An environment in which every call succeeds. -/
def wEnv : Env :=
  { b64sha256 := wB64, rnd := wRnd, flow_responses := wFlowResponses,
    token_response := ⟨200, some "TOK", some 3600⟩,
    espace_response :=
      ⟨200, [⟨some "CID", [⟨some "TID", [⟨some "AID", some "MTR"⟩]⟩]⟩]⟩,
    facturation_response := ⟨200, some "PDS", some "2020-01-01"⟩,
    alerts_response := ⟨200, {}⟩,
    set_alerts_status := 204,
    now := 1000 }

/-- A fresh client with no session data. -/
def wClient : Client := ⟨"user", "pw", {}⟩

/-- A client holding a valid, unexpired token. -/
def wClientTok : Client :=
  ⟨"user", "pw", { access_token := some "TOK", token_expiration := 2000 }⟩

/-- A client with an empty password. -/
def wClientNoPw : Client := ⟨"user", "", {}⟩

/-- A redirect chain that reaches the password step and then fails. -/
def wC2Responses : List Response :=
  [⟨302, some ⟨LOGIN_IDENTIFIER_ENDPOINT, [("state", "S1")]⟩⟩,
   ⟨302, some ⟨LOGIN_PASSWORD_ENDPOINT, [("state", "S2")]⟩⟩,
   ⟨400, none⟩]

/-- All-disabled alert settings. -/
def wAlertOff : AlertSettings :=
  ⟨false, none, none, none, false, none, none, none⟩

/-! ## Witnesses -/

/-- C1 witness: with a truthy token and a strictly future expiration,
check_token is a no-op on a concrete client. -/
theorem check_token_relogin_iff_witness :
    check_token 1 wEnv wClientTok
      = ⟨[], wClientTok.account_data, .ok ()⟩ :=
  (check_token_relogin_iff 0 wEnv wClientTok).2 (by decide) (by decide)

/-- C2 witness: on a concrete run reaching the password step at index 2,
the state sent there is the fold of the two prior redirect updates. -/
theorem flow_state_correlation_witness :
    ((execute_flow wB64 wRnd "user" "pw" wC2Responses {}).1.get
        ⟨2, by decide⟩).sentState
      = (wC2Responses.take 2).foldl updState none :=
  (flow_state_correlation wB64 wRnd "user" "pw" {} wC2Responses).1 2
    (by decide) (by decide)

/-- C3 witness: a fully successful concrete run returns True, and indeed
all seven identifier fields end up truthy. -/
theorem login_success_iff_witness :
    (true = true ↔ (truthy (login 1 wEnv wClient).data.access_token = true
      ∧ truthy (login 1 wEnv wClient).data.id_abonnement = true
      ∧ truthy (login 1 wEnv wClient).data.numero_pds = true
      ∧ truthy (login 1 wEnv wClient).data.contact_id = true
      ∧ truthy (login 1 wEnv wClient).data.tiers_id = true
      ∧ truthy (login 1 wEnv wClient).data.numero_compteur = true
      ∧ truthy (login 1 wEnv wClient).data.date_debut_abonnement = true)) :=
  login_success_iff 1 wEnv wClient (login 1 wEnv wClient).trace
    (login 1 wEnv wClient).data true (by decide)

/-- C4 witness: a concrete 400 at the password step raises the credential
error, and the loop stops after that single request. -/
theorem password_400_terminal_witness :
    _handle_response ⟨"POST", 302⟩ ⟨400, none⟩ LOGIN_PASSWORD_ENDPOINT
        (some "S2") "u" none = .error "Invalid username or password"
    ∧ (execute_flow_aux wB64 wRnd "user" "pw" [⟨400, none⟩] 2
        LOGIN_PASSWORD_ENDPOINT (some "S2") {}).1.length = 1 :=
  ⟨password_400_terminal.1 ⟨"POST", 302⟩ ⟨400, none⟩ (some "S2") "u" none
      rfl,
    (password_400_terminal.2 wB64 wRnd "user" "pw" ⟨400, none⟩ [] 2
      (some "S2") {} rfl).1⟩

/-- C5 witness: a concrete 200 token response stores the token and sets
the expiration to now plus expires_in. -/
theorem get_access_token_spec_witness :
    get_access_token wEnv {}
      = ⟨[token_request {}],
          { access_token := some "TOK", token_expiration := 4600 },
          .ok ()⟩ :=
  (get_access_token_spec wEnv {}).2.2.1 (by decide) (by decide)

/-- C7 witness: a concrete 200 alerts response with no journalier entry
gives daily_enabled false and None daily fields. -/
theorem get_alerts_daily_absent_witness :
    get_alerts 1 wEnv wClientTok
      = ⟨[alerts_request wClientTok.account_data], wClientTok.account_data,
          .ok { daily_enabled := false, daily_threshold := none,
                daily_contact_email := none, daily_contact_sms := none,
                monthly_enabled := false, monthly_threshold := none,
                monthly_contact_email := none,
                monthly_contact_sms := none }⟩ :=
  get_alerts_daily_absent 1 wEnv wClientTok (by decide) (by decide) rfl rfl

/-- C8 witness: with daily alerts disabled the payload omits
alerte_journaliere, and a concrete 204 response reports success. -/
theorem set_alerts_spec_witness :
    (set_alerts_payload {} wAlertOff).alerte_journaliere = none
    ∧ ((set_alerts 1 wEnv wClientTok wAlertOff).res = .ok true
        ↔ wEnv.set_alerts_status = 204) :=
  ⟨(set_alerts_spec {} wAlertOff 1 wEnv wClientTok).1 rfl,
    ((set_alerts_spec {} wAlertOff 1 wEnv wClientTok).2.2 (by decide)
      (by decide)).2⟩

/-- C9 witness: a concrete 200 at the authorize step yields the generic
status-mismatch failure. -/
theorem status200_noncallback_fails_witness :
    _handle_response ⟨"GET", 302⟩ ⟨200, none⟩ AUTHORIZE_ENDPOINT none "u"
        none
      = .error ("API call to " ++ "u" ++ " failed with status "
          ++ toString (200 : Nat)) :=
  (status200_noncallback_fails AUTHORIZE_ENDPOINT ⟨"GET", 302⟩ ⟨200, none⟩
    none "u" none).1 rfl (by decide) rfl

/-- C10 witness: a concrete client with an empty password makes login
raise the credentials error with no request issued and the session record
untouched. -/
theorem login_empty_credentials_witness :
    login 1 wEnv wClientNoPw
      = ⟨[], wClientNoPw.account_data,
          .error "Username or password not provided"⟩ :=
  login_empty_credentials 1 wEnv wClientNoPw (Or.inr rfl)

end Veolia
